import Mathlib

/-!
Verification of the ATLAS hedging core (exposure ledger, policy engine,
recommendation lifecycle, order orchestrator, settlement lifecycle).

The definitions below are a shallow embedding of the Python services under
`backend/app/atlas/services/` and the SQLAlchemy models under
`backend/app/atlas/models/atlas_models.py`.  Decimal fields are modelled as
rationals, dates as integer day offsets from "today", and datetimes as
integer timestamps.  Fallible service calls return `Option`.
-/

namespace Atlas

/-- `ExposureType` from atlas_models.py. -/
inductive ExposureType
  | payable
  | receivable
deriving DecidableEq, Repr

/-- `ExposureStatus` from atlas_models.py (`opn` stands for OPEN,
`partlyHedged` for PARTIALLY_HEDGED). -/
inductive ExposureStatus
  | opn
  | partlyHedged
  | fullyHedged
  | settled
  | cancelled
deriving DecidableEq, Repr

/-- `HedgeAction` from atlas_models.py (`hedgePart` stands for HEDGE_PARTIAL). -/
inductive HedgeAction
  | hedgeNow
  | hedgePart
  | wait
  | review
deriving DecidableEq, Repr

/-- `RecommendationStatus` from atlas_models.py. -/
inductive RecStatus
  | pending
  | accepted
  | rejected
  | expired
deriving DecidableEq, Repr

/-- `OrderStatus` from atlas_models.py. -/
inductive OrderStatus
  | draft
  | pendingApproval
  | approved
  | sentToBank
  | quoted
  | executed
  | cancelled
  | rejected
deriving DecidableEq, Repr

/-- `TradeStatus` from atlas_models.py. -/
inductive TradeStatus
  | confirmed
  | pendingSettlement
  | settled
  | failed
deriving DecidableEq, Repr

/-- `SettlementStatus` from atlas_models.py. -/
inductive SettlementStatus
  | pending
  | processing
  | completed
  | failed
deriving DecidableEq, Repr

/-- The `Exposure` row: the fields the core services read or write.
`dueDays` is `due_date - today` in days; `targetRate` is the nullable
`target_rate` column. -/
structure Exposure where
  exposureType : ExposureType
  amount : ℚ
  amountHedged : ℚ
  hedgePercentage : ℚ
  status : ExposureStatus
  targetRate : Option ℚ
  dueDays : ℤ
deriving DecidableEq, Repr

/-- `ExposureService.update_hedge_amount` (exposure_service.py lines 523-551):
stores the supplied hedged amount, recomputes `hedge_percentage`
(`hedged / amount * 100` when `amount > 0`, else 0) and derives the status:
`hedged >= amount -> FULLY_HEDGED`, `hedged > 0 -> PARTIALLY_HEDGED`,
otherwise `OPEN`.  The source stores the amount as given, with no clamping. -/
def updateHedgeAmount (e : Exposure) (hedgedAmount : ℚ) : Exposure :=
  { e with
    amountHedged := hedgedAmount
    hedgePercentage := if 0 < e.amount then hedgedAmount / e.amount * 100 else 0
    status :=
      if e.amount ≤ hedgedAmount then ExposureStatus.fullyHedged
      else if 0 < hedgedAmount then ExposureStatus.partlyHedged
      else ExposureStatus.opn }

/-- `PolicyEngine.DEFAULT_HORIZONS` (policy_engine.py lines 43-48): the
horizon buckets with their inclusive day bounds. -/
def DEFAULT_HORIZONS : List (String × Nat × Nat) :=
  [("0-30", 0, 30), ("31-60", 31, 60), ("61-90", 61, 90), ("91+", 91, 9999)]

/-- `days = max(0, (due_date - today).days)` as computed in
`group_by_horizon` and `Exposure.days_to_maturity`. -/
def daysToMaturity (dueDays : ℤ) : ℤ := max 0 dueDays

/-- All buckets whose inclusive interval `[min_days, max_days]` contains
`days` (the membership test of the loop in `group_by_horizon`,
policy_engine_helpers.py lines 18-21). -/
def bucketsOf (days : ℤ) : List String :=
  (DEFAULT_HORIZONS.filter fun h =>
    decide ((h.2.1 : ℤ) ≤ days) && decide (days ≤ (h.2.2 : ℤ))).map fun h => h.1

/-- The bucket an exposure is placed into: the first bucket whose interval
contains `days` (the loop breaks at the first match). -/
def horizonOf (days : ℤ) : Option String :=
  (DEFAULT_HORIZONS.find? fun h =>
    decide ((h.2.1 : ℤ) ≤ days) && decide (days ≤ (h.2.2 : ℤ))).map fun h => h.1

/-- `group_by_horizon` (policy_engine_helpers.py lines 9-23): each exposure
lands in the first bucket containing its clamped days-to-maturity; an
exposure matching no bucket is dropped. -/
def groupByHorizon (exposures : List Exposure) : List (String × List Exposure) :=
  DEFAULT_HORIZONS.map fun h =>
    (h.1, exposures.filter fun e =>
      decide (horizonOf (daysToMaturity e.dueDays) = some h.1))

/-- The `HedgeOrder` row: the fields the orchestrator reads or writes. -/
structure Order where
  status : OrderStatus
  amount : ℚ
  requiresApproval : Bool
  targetRate : Option ℚ
deriving DecidableEq, Repr

/-- The `Trade` row created by `execute_order`. `valueDate` is the
`value_date` column as a day offset. -/
structure Trade where
  status : TradeStatus
  side : String
  currencySold : String
  amountSold : ℚ
  currencyBought : String
  amountBought : ℚ
  executedRate : ℚ
  valueDate : ℤ
deriving DecidableEq, Repr

/-- The `TradeCreate` request schema (schemas.py lines 414-430), restricted
to the fields `execute_order` copies onto the trade. -/
structure TradeCreate where
  side : String
  currencySold : String
  amountSold : ℚ
  currencyBought : String
  amountBought : ℚ
  executedRate : ℚ
  valueDate : ℤ
deriving DecidableEq, Repr

/-- The `Settlement` row: status, currency, amount and settlement date. -/
structure Settlement where
  status : SettlementStatus
  currency : String
  amount : ℚ
  settlementDate : ℤ
deriving DecidableEq, Repr

/-- The `Quote` row: validity window and acceptance flags. -/
structure QuoteRec where
  validUntil : Option ℤ
  isAccepted : Bool
  isExpired : Bool
deriving DecidableEq, Repr

/-- The `HedgeRecommendation` row: the fields the lifecycle operations
read or write. -/
structure Recommendation where
  status : RecStatus
  validUntil : Option ℤ
  amountToHedge : ℚ
deriving DecidableEq, Repr

/-- The slice of the record store one `execute_order` call touches: the
order, the exposure it references (none when `exposure_id` is unset or the
row is missing), and the trade and settlement tables. -/
structure OrderState where
  order : Order
  exposure : Option Exposure
  trades : List Trade
  settlements : List Settlement
deriving DecidableEq, Repr

/-- `OrderOrchestrator._update_exposure_hedge` (order_orchestrator.py lines
446-473): adds `hedgedAmount` to the current hedged amount, clamps at the
exposure's total via `min`, recomputes the percentage and sets the status to
FULLY_HEDGED when `hedged >= amount`, else PARTIALLY_HEDGED. -/
def updateExposureHedge (e : Exposure) (hedgedAmount : ℚ) : Exposure :=
  let newHedged := min (e.amountHedged + hedgedAmount) e.amount
  { e with
    amountHedged := newHedged
    hedgePercentage := if 0 < e.amount then newHedged / e.amount * 100 else 0
    status :=
      if e.amount ≤ newHedged then ExposureStatus.fullyHedged
      else ExposureStatus.partlyHedged }

/-- The trade record built by `execute_order` from the request data:
status is CONFIRMED. -/
def mkTrade (td : TradeCreate) : Trade :=
  { status := TradeStatus.confirmed
    side := td.side
    currencySold := td.currencySold
    amountSold := td.amountSold
    currencyBought := td.currencyBought
    amountBought := td.amountBought
    executedRate := td.executedRate
    valueDate := td.valueDate }

/-- `OrderOrchestrator.execute_order` (order_orchestrator.py lines 384-444):
fails (returns `none`, no state change) unless the order's status is
APPROVED or QUOTED; otherwise creates one CONFIRMED trade, marks the order
EXECUTED and, when an exposure is referenced, feeds the order amount into
`_update_exposure_hedge`.  No settlement row is created. -/
def executeOrder (s : OrderState) (td : TradeCreate) : Option Trade × OrderState :=
  if s.order.status = OrderStatus.approved ∨ s.order.status = OrderStatus.quoted then
    let t := mkTrade td
    (some t,
      { order := { s.order with status := OrderStatus.executed }
        exposure := s.exposure.map fun e => updateExposureHedge e s.order.amount
        trades := s.trades ++ [t]
        settlements := s.settlements })
  else (none, s)

/-- `OrderOrchestrator.approve_order` (lines 223-248): only from
PENDING_APPROVAL. -/
def approveOrder (o : Order) : Option Order :=
  if o.status = OrderStatus.pendingApproval then
    some { o with status := OrderStatus.approved }
  else none

/-- `OrderOrchestrator.reject_order` (lines 250-274): only from
PENDING_APPROVAL. -/
def rejectOrder (o : Order) : Option Order :=
  if o.status = OrderStatus.pendingApproval then
    some { o with status := OrderStatus.rejected }
  else none

/-- `OrderOrchestrator.cancel_order` (lines 276-301): from any status
except EXECUTED. -/
def cancelOrder (o : Order) : Option Order :=
  if o.status = OrderStatus.executed then none
  else some { o with status := OrderStatus.cancelled }

/-- `HedgeOrderUpdate` (schemas.py lines 333-338): the only mutable fields
are rates, settlement date and notes; of these the model keeps
`targetRate`.  A `none` field means "not supplied" (`exclude_unset`). -/
structure OrderPatch where
  targetRate : Option ℚ
deriving DecidableEq, Repr

/-- `OrderOrchestrator.update_order` (lines 192-217): only while DRAFT or
PENDING_APPROVAL; applies the supplied patch fields. -/
def updateOrder (o : Order) (p : OrderPatch) : Option Order :=
  if o.status = OrderStatus.draft ∨ o.status = OrderStatus.pendingApproval then
    some { o with targetRate :=
      match p.targetRate with
      | some r => some r
      | none => o.targetRate }
  else none

/-- `OrderOrchestrator.accept_quote` (lines 348-378): when `valid_until`
is set and lies in the past, marks the quote expired and fails; otherwise
flips `is_accepted`.  The order row is never touched.  Returns
(call result, quote row after, order row after). -/
def acceptQuote (o : Order) (q : QuoteRec) (now : ℤ) : Option QuoteRec × QuoteRec × Order :=
  if (match q.validUntil with | some v => decide (v < now) | none => false) then
    (none, { q with isExpired := true }, o)
  else
    let q2 := { q with isAccepted := true }
    (some q2, q2, o)

/-- `HedgeOrderCreate` (schemas.py lines 319-330), restricted to the fields
that drive order creation. -/
structure OrderCreate where
  amount : ℚ
  targetRate : Option ℚ
deriving DecidableEq, Repr

/-- `OrderOrchestrator._check_approval_required` (lines 479-488):
`amount >= 100000`, the hard-coded default threshold. -/
def checkApprovalRequired (amount : ℚ) : Bool :=
  decide ((100000 : ℚ) ≤ amount)

/-- `OrderOrchestrator.create_order` (lines 55-101): the new order is
PENDING_APPROVAL when approval is required, else APPROVED; when a
recommendation is referenced (and found) its status is set to ACCEPTED in
the same commit, regardless of its current status. -/
def createOrder (data : OrderCreate) (rec : Option Recommendation) :
    Order × Option Recommendation :=
  let requiresApproval := checkApprovalRequired data.amount
  let order : Order :=
    { status :=
        if requiresApproval then OrderStatus.pendingApproval else OrderStatus.approved
      amount := data.amount
      requiresApproval := requiresApproval
      targetRate := data.targetRate }
  (order, rec.map fun r => { r with status := RecStatus.accepted })

/-- The slice of the record store one settlement operation touches: the
settlements of one trade, that trade, and the exposure referenced by the
trade's order (none when absent). -/
structure SettleState where
  settlements : List Settlement
  trade : Trade
  exposure : Option Exposure
deriving DecidableEq, Repr

/-- `SettlementService._check_trade_settlement` (settlement_service.py lines
211-230): when every settlement of the trade is COMPLETED, the trade flips
to SETTLED and, when the order references an exposure with
`amount_hedged >= amount`, that exposure flips to SETTLED. -/
def checkTradeSettlement (s : SettleState) : SettleState :=
  if s.settlements.all (fun x => decide (x.status = SettlementStatus.completed)) then
    { s with
      trade := { s.trade with status := TradeStatus.settled }
      exposure := s.exposure.map fun e =>
        if e.amount ≤ e.amountHedged then { e with status := ExposureStatus.settled }
        else e }
  else s

/-- `SettlementService.mark_completed` (lines 169-190): sets the settlement
COMPLETED, then runs `_check_trade_settlement` before the single commit. -/
def markCompleted (s : SettleState) (i : Nat) : Option (Settlement × SettleState) :=
  match s.settlements.get? i with
  | none => none
  | some st =>
    let st2 := { st with status := SettlementStatus.completed }
    some (st2, checkTradeSettlement { s with settlements := s.settlements.set i st2 })

/-- `SettlementUpdate` (schemas.py lines 472-477): the generic patch may set
the status directly. -/
structure SettlementPatch where
  status : Option SettlementStatus
deriving DecidableEq, Repr

/-- `SettlementService.update` (lines 138-154): applies the patch fields and
commits, with no reconciliation check. -/
def updateSettlement (s : SettleState) (i : Nat) (p : SettlementPatch) :
    Option (Settlement × SettleState) :=
  match s.settlements.get? i with
  | none => none
  | some st =>
    let st2 := { st with status :=
      match p.status with
      | some v => v
      | none => st.status }
    some (st2, { s with settlements := s.settlements.set i st2 })

/-- `SettlementService.create_from_trade` (lines 55-87): two PENDING legs,
one per currency side, both dated at the trade's value date. -/
def createFromTrade (t : Trade) : List Settlement :=
  [ { status := SettlementStatus.pending
      currency := t.currencySold
      amount := t.amountSold
      settlementDate := t.valueDate },
    { status := SettlementStatus.pending
      currency := t.currencyBought
      amount := t.amountBought
      settlementDate := t.valueDate } ]

/-- Python truthiness of an optional Decimal with a default, as in
`policy.max_single_exposure or Decimal("999999999")`: `None` and `0` both
fall back to the default. -/
def pyOrDefault (x : Option ℚ) (d : ℚ) : ℚ :=
  match x with
  | none => d
  | some q => if q = 0 then d else q

/-- `determine_action` (policy_engine_helpers.py lines 26-56): REVIEW when
the amount reaches `max_single_exposure` (defaulted to 999999999 when the
policy leaves it unset); HEDGE_NOW for the `0-30` bucket; for `31-60` and
`61-90`, HEDGE_NOW when coverage is below half the target, else
HEDGE_PARTIAL; otherwise HEDGE_NOW only when both the supplied current rate
and the exposure's target rate are present (and nonzero, Python truthiness)
and the current rate is favorable, else WAIT. -/
def determineAction (e : Exposure) (maxSingleExposure : Option ℚ) (horizon : String)
    (currentCoverage targetCoverage : ℚ) (currentRate : Option ℚ) : HedgeAction :=
  if pyOrDefault maxSingleExposure 999999999 ≤ e.amount then HedgeAction.review
  else if horizon = "0-30" then HedgeAction.hedgeNow
  else if horizon = "31-60" ∨ horizon = "61-90" then
    if currentCoverage < targetCoverage * (1 / 2) then HedgeAction.hedgeNow
    else HedgeAction.hedgePart
  else
    match currentRate, e.targetRate with
    | some cr, some tr =>
      if cr ≠ 0 ∧ tr ≠ 0 then
        if e.exposureType = ExposureType.payable then
          if cr ≤ tr then HedgeAction.hedgeNow else HedgeAction.wait
        else
          if tr ≤ cr then HedgeAction.hedgeNow else HedgeAction.wait
      else HedgeAction.wait
    | _, _ => HedgeAction.wait

/-- `calculate_priority` (policy_engine_helpers.py lines 59-88, identical to
`PolicyEngine._calculate_priority`): base priority by bucket, +10 for
amounts of 1,000,000 or more, +5 for 100,000 or more, capped at 100;
urgency by fixed thresholds. -/
def calculatePriority (horizon : String) (amountToHedge : ℚ) : Nat × String :=
  let base : Nat :=
    if horizon = "0-30" then 90
    else if horizon = "31-60" then 70
    else if horizon = "61-90" then 50
    else if horizon = "91+" then 30
    else 50
  let adjusted : Nat :=
    if (1000000 : ℚ) ≤ amountToHedge then base + 10
    else if (100000 : ℚ) ≤ amountToHedge then base + 5
    else base
  let priority := min 100 adjusted
  let urgency :=
    if 85 ≤ priority then "critical"
    else if 70 ≤ priority then "high"
    else if 50 ≤ priority then "normal"
    else "low"
  (priority, urgency)

/-- `calculate_confidence` (policy_engine_helpers.py lines 91-99): fixed
lookup by bucket, 70 for an unknown key. -/
def calculateConfidence (horizon : String) : ℚ :=
  if horizon = "0-30" then 95
  else if horizon = "31-60" then 85
  else if horizon = "61-90" then 75
  else if horizon = "91+" then 60
  else 70

/-- The recommendation produced by one evaluation of one exposure: the
fields `evaluate_exposure` computes. -/
structure RecOut where
  action : HedgeAction
  amountToHedge : ℚ
  currentCoverage : ℚ
  targetCoverage : ℚ
  priority : Nat
  urgency : String
  confidence : ℚ
  validHours : Nat
  status : RecStatus
deriving DecidableEq, Repr

/-- `evaluate_exposure` (policy_engine_core.py lines 54-128; the skip logic
is identical in `PolicyEngine._evaluate_exposure`, policy_engine.py lines
272-297): skip when the stored coverage already reaches the target; compute
`amount_to_hedge = amount * target / 100 - amount_hedged` and skip when it
is not positive; otherwise emit a PENDING recommendation. -/
def evaluateExposure (e : Exposure) (maxSingleExposure : Option ℚ)
    (targetCoverage : ℤ) (horizon : String) (currentRate : Option ℚ) : Option RecOut :=
  let currentCoverage := e.hedgePercentage
  let targetCoveragePct : ℚ := (targetCoverage : ℚ)
  if targetCoveragePct ≤ currentCoverage then none
  else
    let targetHedged := e.amount * (targetCoverage : ℚ) / 100
    let amountToHedge := targetHedged - e.amountHedged
    if amountToHedge ≤ 0 then none
    else
      let action :=
        determineAction e maxSingleExposure horizon currentCoverage targetCoveragePct
          currentRate
      let pu := calculatePriority horizon amountToHedge
      some { action := action
             amountToHedge := amountToHedge
             currentCoverage := currentCoverage
             targetCoverage := targetCoveragePct
             priority := pu.1
             urgency := pu.2
             confidence := calculateConfidence horizon
             validHours := if pu.2 = "high" ∨ pu.2 = "critical" then 24 else 48
             status := RecStatus.pending }

/-- `RecommendationService.accept` (recommendation_service.py lines 95-120):
only from PENDING, else the call fails with `none` and changes nothing. -/
def acceptRecommendation (r : Recommendation) : Option Recommendation :=
  if r.status = RecStatus.pending then some { r with status := RecStatus.accepted }
  else none

/-- `RecommendationService.reject` (lines 122-149): only from PENDING. -/
def rejectRecommendation (r : Recommendation) : Option Recommendation :=
  if r.status = RecStatus.pending then some { r with status := RecStatus.rejected }
  else none

/-- The SQL filter of the expiry sweep: PENDING and `valid_until < now`
(a NULL `valid_until` never matches). -/
def validUntilPast (r : Recommendation) (now : ℤ) : Bool :=
  match r.validUntil with
  | some v => decide (v < now)
  | none => false

/-- `RecommendationService.expire_old` (lines 151-162): moves every PENDING
recommendation whose `valid_until` is in the past to EXPIRED. -/
def expireOld (recs : List Recommendation) (now : ℤ) : List Recommendation :=
  recs.map fun r =>
    if r.status = RecStatus.pending ∧ validUntilPast r now then
      { r with status := RecStatus.expired }
    else r

/-- `update_hedge_amount` leaves the exposure's total amount unchanged. -/
theorem updateHedgeAmount_amount (e : Exposure) (h : ℚ) :
    (updateHedgeAmount e h).amount = e.amount := rfl

/-- A fold of hedge-amount updates leaves the total amount unchanged. -/
theorem foldl_updateHedgeAmount_amount (hs : List ℚ) (e : Exposure) :
    (hs.foldl updateHedgeAmount e).amount = e.amount := by
  induction hs generalizing e with
  | nil => rfl
  | cons x xs ih => simpa [List.foldl] using ih (updateHedgeAmount e x)

/-- When every update of a sequence stays inside `[0, amount]`, the stored
hedged amount stays inside `[0, amount]`. -/
theorem foldl_updateHedgeAmount_bounds (hs : List ℚ) (e : Exposure)
    (h0 : 0 ≤ e.amountHedged) (h1 : e.amountHedged ≤ e.amount)
    (hall : ∀ x ∈ hs, 0 ≤ x ∧ x ≤ e.amount) :
    0 ≤ (hs.foldl updateHedgeAmount e).amountHedged ∧
    (hs.foldl updateHedgeAmount e).amountHedged ≤ (hs.foldl updateHedgeAmount e).amount := by
  induction hs generalizing e with
  | nil => exact ⟨h0, by simpa using h1⟩
  | cons x xs ih =>
    have hx := hall x (by simp)
    refine ih (updateHedgeAmount e x) hx.1 ?_ ?_
    · simpa [updateHedgeAmount] using hx.2
    · intro y hy
      have hyy := hall y (List.mem_cons_of_mem _ hy)
      simpa [updateHedgeAmount] using hyy

/-- Concrete exposure used to refute the clamping part of claim C1:
total amount 100, nothing hedged yet. -/
def c1exp : Exposure :=
  { exposureType := ExposureType.payable
    amount := 100
    amountHedged := 0
    hedgePercentage := 0
    status := ExposureStatus.opn
    targetRate := none
    dueDays := 10 }

/-- Claim C1 counterexample: `update_hedge_amount` does not clamp.  Passing
a hedged amount of 150 against an exposure of amount 100 stores 150 (and a
hedge percentage of 150), violating the claimed bound
`amount_hedged ≤ amount`; likewise -50 is stored as is, violating
`0 ≤ amount_hedged`. -/
theorem C1_counterexample :
    (updateHedgeAmount c1exp 150).amountHedged = 150 ∧
    ¬ (updateHedgeAmount c1exp 150).amountHedged ≤ c1exp.amount ∧
    (updateHedgeAmount c1exp 150).hedgePercentage = 150 ∧
    (updateHedgeAmount c1exp (-50)).amountHedged = -50 ∧
    ¬ 0 ≤ (updateHedgeAmount c1exp (-50)).amountHedged := by
  refine ⟨rfl, ?_, ?_, rfl, ?_⟩ <;> norm_num [updateHedgeAmount, c1exp]

/-- Claim C1 (amended): `update_hedge_amount` stores the supplied amount
without clamping; `hedge_percentage` is recomputed as
`hedged / amount * 100` (0 when the amount is not positive); the status is
FULLY_HEDGED iff `hedged ≥ amount`, PARTIALLY_HEDGED iff
`0 < hedged < amount`, OPEN iff `hedged ≤ 0 < amount - hedged`; and the
invariant `0 ≤ amount_hedged ≤ amount` is preserved by a sequence of
updates provided every supplied amount lies in `[0, amount]`. -/
theorem C1_amended (e : Exposure) (h : ℚ) (hs : List ℚ) :
    (updateHedgeAmount e h).amountHedged = h ∧
    (updateHedgeAmount e h).hedgePercentage =
      (if 0 < e.amount then h / e.amount * 100 else 0) ∧
    ((updateHedgeAmount e h).status = ExposureStatus.fullyHedged ↔ e.amount ≤ h) ∧
    ((updateHedgeAmount e h).status = ExposureStatus.partlyHedged ↔
      0 < h ∧ h < e.amount) ∧
    ((updateHedgeAmount e h).status = ExposureStatus.opn ↔ h ≤ 0 ∧ h < e.amount) ∧
    (0 ≤ e.amountHedged → e.amountHedged ≤ e.amount →
      (∀ x ∈ hs, 0 ≤ x ∧ x ≤ e.amount) →
      0 ≤ (hs.foldl updateHedgeAmount e).amountHedged ∧
      (hs.foldl updateHedgeAmount e).amountHedged ≤ (hs.foldl updateHedgeAmount e).amount) := by
  refine ⟨rfl, rfl, ?_, ?_, ?_, fun h0 h1 hall => foldl_updateHedgeAmount_bounds hs e h0 h1 hall⟩
  · simp only [updateHedgeAmount]
    split_ifs with ha hb
    · simpa using ha
    · simpa using ha
    · simpa using ha
  · simp only [updateHedgeAmount]
    split_ifs with ha hb
    · refine iff_of_false (by decide) ?_
      rintro ⟨h1, h2⟩
      linarith
    · exact iff_of_true rfl ⟨hb, not_le.mp ha⟩
    · refine iff_of_false (by decide) ?_
      rintro ⟨h1, h2⟩
      exact hb h1
  · simp only [updateHedgeAmount]
    split_ifs with ha hb
    · refine iff_of_false (by decide) ?_
      rintro ⟨h1, h2⟩
      linarith
    · refine iff_of_false (by decide) ?_
      rintro ⟨h1, h2⟩
      linarith
    · exact iff_of_true rfl ⟨not_lt.mp hb, not_le.mp ha⟩

/-- Claim C1 witness: the amended theorem at a concrete exposure and a
concrete in-range update sequence. -/
theorem C1_witness :
    0 ≤ (([30, 50] : List ℚ).foldl updateHedgeAmount c1exp).amountHedged ∧
    (([30, 50] : List ℚ).foldl updateHedgeAmount c1exp).amountHedged ≤
      (([30, 50] : List ℚ).foldl updateHedgeAmount c1exp).amount :=
  (C1_amended c1exp 30 [30, 50]).2.2.2.2.2 (by decide) (by decide) (by decide)

/-- Concrete exposure used to refute claim C2: due 10000 days from today. -/
def c2exp : Exposure :=
  { exposureType := ExposureType.receivable
    amount := 500
    amountHedged := 0
    hedgePercentage := 0
    status := ExposureStatus.opn
    targetRate := none
    dueDays := 10000 }

/-- Claim C2 counterexample: the default horizons do not cover `[0, ∞)`.
The `91+` bucket is bounded above by 9999, so an exposure due 10000 days
out has `days = 10000 ≥ 0` yet matches zero buckets, and `group_by_horizon`
silently drops it. -/
theorem C2_counterexample :
    0 ≤ daysToMaturity c2exp.dueDays ∧
    bucketsOf (daysToMaturity c2exp.dueDays) = [] ∧
    ((groupByHorizon [c2exp]).map fun g => g.2.length).sum = 0 := by
  decide

/-- Claim C2 (amended): the default buckets 0-30, 31-60, 61-90 and 91-9999
partition `[0, 9999]`: every `days` in that range lies in exactly one
bucket, and `group_by_horizon` places the exposure in that bucket; a
`days` value above 9999 lies in no bucket at all. -/
theorem C2_amended (days : ℤ) :
    (0 ≤ days → days ≤ 9999 →
      (bucketsOf days).length = 1 ∧ horizonOf days = (bucketsOf days).head?) ∧
    (9999 < days → bucketsOf days = [] ∧ horizonOf days = none) := by
  constructor
  · intro h0 h1
    rcases le_or_lt days 30 with c1 | c1
    · constructor <;>
        simp [bucketsOf, horizonOf, DEFAULT_HORIZONS, List.filter, List.find?, h0, c1,
          show ¬ (31 : ℤ) ≤ days by omega, show ¬ (61 : ℤ) ≤ days by omega,
          show ¬ (91 : ℤ) ≤ days by omega]
    · rcases le_or_lt days 60 with c2 | c2
      · constructor <;>
          simp [bucketsOf, horizonOf, DEFAULT_HORIZONS, List.filter, List.find?, c2,
            show (31 : ℤ) ≤ days by omega, show ¬ days ≤ 30 by omega,
            show ¬ (61 : ℤ) ≤ days by omega, show ¬ (91 : ℤ) ≤ days by omega]
      · rcases le_or_lt days 90 with c3 | c3
        · constructor <;>
            simp [bucketsOf, horizonOf, DEFAULT_HORIZONS, List.filter, List.find?, c3,
              show (61 : ℤ) ≤ days by omega, show ¬ days ≤ 30 by omega,
              show ¬ days ≤ 60 by omega, show ¬ (91 : ℤ) ≤ days by omega]
        · constructor <;>
            simp [bucketsOf, horizonOf, DEFAULT_HORIZONS, List.filter, List.find?, h1,
              show (91 : ℤ) ≤ days by omega, show ¬ days ≤ 30 by omega,
              show ¬ days ≤ 60 by omega, show ¬ days ≤ 90 by omega]
  · intro hgt
    constructor <;>
      simp [bucketsOf, horizonOf, DEFAULT_HORIZONS, List.filter, List.find?,
        show ¬ days ≤ 30 by omega, show ¬ days ≤ 60 by omega,
        show ¬ days ≤ 90 by omega, show ¬ days ≤ 9999 by omega]

/-- Claim C2 witness: the amended theorem at `days = 45` and at a
beyond-range day count. -/
theorem C2_witness :
    ((bucketsOf 45).length = 1 ∧ horizonOf 45 = (bucketsOf 45).head?) ∧
    (bucketsOf 20000 = [] ∧ horizonOf 20000 = none) :=
  ⟨(C2_amended 45).1 (by decide) (by decide), (C2_amended 20000).2 (by decide)⟩

/-- Claim C3: `execute_order` fails with `none` and changes nothing unless
the order is APPROVED or QUOTED; on success it appends exactly one
CONFIRMED trade, marks the order EXECUTED and, when an exposure is
referenced, raises its hedged amount by the order amount clamped at the
exposure's total (so the result never exceeds the total); and none of
approve, reject, cancel, update or execute moves an order out of
EXECUTED. -/
theorem C3_thm (s : OrderState) (td : TradeCreate) (o : Order) (p : OrderPatch) :
    (s.order.status ≠ OrderStatus.approved → s.order.status ≠ OrderStatus.quoted →
      executeOrder s td = (none, s)) ∧
    ((s.order.status = OrderStatus.approved ∨ s.order.status = OrderStatus.quoted) →
      (executeOrder s td).1 = some (mkTrade td) ∧
      (mkTrade td).status = TradeStatus.confirmed ∧
      (executeOrder s td).2.trades = s.trades ++ [mkTrade td] ∧
      (executeOrder s td).2.order.status = OrderStatus.executed ∧
      (s.exposure = none → (executeOrder s td).2.exposure = none) ∧
      (∀ e, s.exposure = some e →
        (executeOrder s td).2.exposure = some (updateExposureHedge e s.order.amount) ∧
        (updateExposureHedge e s.order.amount).amountHedged =
          min (e.amountHedged + s.order.amount) e.amount ∧
        (updateExposureHedge e s.order.amount).amountHedged ≤ e.amount)) ∧
    (o.status = OrderStatus.executed →
      approveOrder o = none ∧ rejectOrder o = none ∧
      cancelOrder o = none ∧ updateOrder o p = none) ∧
    (s.order.status = OrderStatus.executed → executeOrder s td = (none, s)) := by
  refine ⟨?_, ?_, ?_, ?_⟩
  · intro h1 h2
    simp [executeOrder, h1, h2]
  · intro hOK
    refine ⟨by simp [executeOrder, hOK], rfl, by simp [executeOrder, hOK],
      by simp [executeOrder, hOK], ?_, ?_⟩
    · intro he
      simp [executeOrder, hOK, he]
    · intro e he
      refine ⟨by simp [executeOrder, hOK, he], rfl, min_le_right _ _⟩
  · intro hEx
    refine ⟨?_, ?_, ?_, ?_⟩ <;> simp [approveOrder, rejectOrder, cancelOrder, updateOrder, hEx]
  · intro hEx
    simp [executeOrder, hEx]

/-- Concrete order, exposure, request and state for the claim C3 witness. -/
def c3order : Order :=
  { status := OrderStatus.approved
    amount := 60000
    requiresApproval := false
    targetRate := none }

def c3exp : Exposure :=
  { exposureType := ExposureType.payable
    amount := 100000
    amountHedged := 50000
    hedgePercentage := 50
    status := ExposureStatus.partlyHedged
    targetRate := none
    dueDays := 40 }

def c3td : TradeCreate :=
  { side := "buy"
    currencySold := "COP"
    amountSold := 240000000
    currencyBought := "USD"
    amountBought := 60000
    executedRate := 4000
    valueDate := 45 }

def c3s : OrderState :=
  { order := c3order
    exposure := some c3exp
    trades := []
    settlements := [] }

/-- Claim C3 witness: executing a concrete APPROVED order produces the
CONFIRMED trade, marks the order EXECUTED, and clamps the exposure's
hedged amount at its total. -/
theorem C3_witness :
    (executeOrder c3s c3td).1 = some (mkTrade c3td) ∧
    (executeOrder c3s c3td).2.order.status = OrderStatus.executed ∧
    (updateExposureHedge c3exp c3s.order.amount).amountHedged ≤ c3exp.amount := by
  have h := (C3_thm c3s c3td c3order ⟨none⟩).2.1 (by decide)
  exact ⟨h.1, h.2.2.2.1, (h.2.2.2.2.2 c3exp rfl).2.2⟩

/-- Concrete trade and settlement state for the claim C4 counterexample:
two PENDING legs of one CONFIRMED trade. -/
def c4trade : Trade :=
  { status := TradeStatus.confirmed
    side := "buy"
    currencySold := "COP"
    amountSold := 400000
    currencyBought := "USD"
    amountBought := 100
    executedRate := 4000
    valueDate := 30 }

def c4s0 : SettleState :=
  { settlements :=
      [ { status := SettlementStatus.pending
          currency := "COP"
          amount := 400000
          settlementDate := 30 },
        { status := SettlementStatus.pending
          currency := "USD"
          amount := 100
          settlementDate := 30 } ]
    trade := c4trade
    exposure := none }

/-- The state after completing leg 0 through `mark_completed`. -/
def c4s1 : SettleState := ((markCompleted c4s0 0).map Prod.snd).getD c4s0

/-- The state after then completing leg 1 through the generic `update`. -/
def c4s2 : SettleState :=
  ((updateSettlement c4s1 1 ⟨some SettlementStatus.completed⟩).map Prod.snd).getD c4s1

/-- Claim C4 counterexample: completing the last settlement through the
generic `SettlementService.update` patch skips `_check_trade_settlement`,
so all settlements end COMPLETED while the trade stays CONFIRMED — the
claimed "if and only if" fails. -/
theorem C4_counterexample :
    (markCompleted c4s0 0).isSome = true ∧
    (updateSettlement c4s1 1 ⟨some SettlementStatus.completed⟩).isSome = true ∧
    c4s2.settlements.all (fun x => decide (x.status = SettlementStatus.completed)) = true ∧
    c4s2.trade.status = TradeStatus.confirmed ∧
    TradeStatus.confirmed ≠ TradeStatus.settled := by
  decide

/-- Claim C4 (amended): completion through `mark_completed` reconciles in
the same transaction: the leg becomes COMPLETED, the trade ends SETTLED
exactly when all of its settlements are then COMPLETED, and when the
order's exposure has `amount_hedged = amount` it flips to SETTLED; but the
generic `update` patch never touches the trade, so a trade whose last leg
is completed that way stays unreconciled. -/
theorem C4_amended (s : SettleState) (i : Nat) (r : Settlement × SettleState)
    (hpre : s.trade.status = TradeStatus.confirmed)
    (h : markCompleted s i = some r) :
    r.1.status = SettlementStatus.completed ∧
    (r.2.trade.status = TradeStatus.settled ↔
      r.2.settlements.all (fun x => decide (x.status = SettlementStatus.completed)) = true) ∧
    (∀ e, s.exposure = some e → e.amountHedged = e.amount →
      r.2.settlements.all (fun x => decide (x.status = SettlementStatus.completed)) = true →
      r.2.exposure = some { e with status := ExposureStatus.settled }) ∧
    (∀ p r2, updateSettlement s i p = some r2 → r2.2.trade = s.trade) := by
  rcases hg : s.settlements.get? i with _ | st
  · rw [markCompleted, hg] at h
    exact absurd h (by simp)
  · rw [markCompleted, hg] at h
    have hr : r = ({ st with status := SettlementStatus.completed },
        checkTradeSettlement
          { s with settlements :=
              s.settlements.set i { st with status := SettlementStatus.completed } }) := by
      exact (Option.some.inj h).symm
    subst hr
    set s2 : SettleState :=
      { s with settlements :=
          s.settlements.set i { st with status := SettlementStatus.completed } } with hs2
    refine ⟨rfl, ?_, ?_, ?_⟩
    · by_cases hall :
        s2.settlements.all (fun x => decide (x.status = SettlementStatus.completed)) = true
      · simp [checkTradeSettlement, hall]
      · simp [checkTradeSettlement, hall, hpre]
    · intro e he heq hallr
      have hall :
          s2.settlements.all (fun x => decide (x.status = SettlementStatus.completed)) = true := by
        by_cases hall :
            s2.settlements.all (fun x => decide (x.status = SettlementStatus.completed)) = true
        · exact hall
        · rw [checkTradeSettlement] at hallr
          simp only [hall] at hallr
          exact absurd hallr hall
      simp [checkTradeSettlement, hall, he, le_of_eq heq.symm]
    · intro p r2 h2
      rcases hg2 : s.settlements.get? i with _ | st2
      · rw [updateSettlement, hg2] at h2
        exact absurd h2 (by simp)
      · rw [updateSettlement, hg2] at h2
        have hr2 := (Option.some.inj h2).symm
        rw [hr2]

/-- Concrete one-leg state for the claim C4 witness. -/
def c4wtrade : Trade :=
  { status := TradeStatus.confirmed
    side := "sell"
    currencySold := "USD"
    amountSold := 5
    currencyBought := "COP"
    amountBought := 20000
    executedRate := 4000
    valueDate := 1 }

def c4w : SettleState :=
  { settlements :=
      [ { status := SettlementStatus.pending
          currency := "USD"
          amount := 5
          settlementDate := 1 } ]
    trade := c4wtrade
    exposure := none }

/-- The completed leg and reconciled state `mark_completed` returns on
`c4w`. -/
def c4wr : Settlement × SettleState :=
  ( { status := SettlementStatus.completed
      currency := "USD"
      amount := 5
      settlementDate := 1 },
    { settlements :=
        [ { status := SettlementStatus.completed
            currency := "USD"
            amount := 5
            settlementDate := 1 } ]
      trade := { c4wtrade with status := TradeStatus.settled }
      exposure := none } )

/-- Claim C4 witness: the amended theorem at the concrete one-leg state. -/
theorem C4_witness :
    c4wr.1.status = SettlementStatus.completed ∧
    (c4wr.2.trade.status = TradeStatus.settled ↔
      c4wr.2.settlements.all (fun x => decide (x.status = SettlementStatus.completed)) = true) := by
  have h := C4_amended c4w 0 c4wr (by decide) (by decide)
  exact ⟨h.1, h.2.1⟩

/-- Concrete order, request and state for the claim C5 counterexample. -/
def c5order : Order :=
  { status := OrderStatus.approved
    amount := 50000
    requiresApproval := false
    targetRate := none }

def c5td : TradeCreate :=
  { side := "buy"
    currencySold := "COP"
    amountSold := 200000000
    currencyBought := "USD"
    amountBought := 50000
    executedRate := 4000
    valueDate := 30 }

def c5s0 : OrderState :=
  { order := c5order
    exposure := none
    trades := []
    settlements := [] }

/-- Claim C5 counterexample: executing a valid order succeeds and creates
the trade, but creates zero settlement rows — `create_from_trade` is never
invoked by `execute_order` (nor by any other caller), so the claimed two
legs per executed order do not exist. -/
theorem C5_counterexample :
    (executeOrder c5s0 c5td).1.isSome = true ∧
    (executeOrder c5s0 c5td).2.order.status = OrderStatus.executed ∧
    (executeOrder c5s0 c5td).2.trades.length = 1 ∧
    (executeOrder c5s0 c5td).2.settlements.length = 0 := by
  decide

/-- Claim C5 (amended): `create_from_trade`, when called with a trade,
creates exactly two PENDING legs dated at the trade's value date — one per
currency side with the sold and bought amounts — but `execute_order`
itself creates no settlement rows: the settlement table is unchanged by
execution. -/
theorem C5_amended (t : Trade) (s : OrderState) (td : TradeCreate) :
    (createFromTrade t).length = 2 ∧
    ((createFromTrade t).all fun x =>
      decide (x.status = SettlementStatus.pending) &&
      decide (x.settlementDate = t.valueDate)) = true ∧
    (createFromTrade t).map (fun x => (x.currency, x.amount)) =
      [(t.currencySold, t.amountSold), (t.currencyBought, t.amountBought)] ∧
    (executeOrder s td).2.settlements = s.settlements := by
  refine ⟨rfl, by simp [createFromTrade], by simp [createFromTrade], ?_⟩
  by_cases hc : s.order.status = OrderStatus.approved ∨ s.order.status = OrderStatus.quoted
  · simp [executeOrder, hc]
  · simp [executeOrder, hc]

/-- Concrete exposure for the claim C6 counterexample: a payable of 1000,
fully unhedged, due in the 91+ bucket, with no target rate set. -/
def c6exp : Exposure :=
  { exposureType := ExposureType.payable
    amount := 1000
    amountHedged := 0
    hedgePercentage := 0
    status := ExposureStatus.opn
    targetRate := none
    dueDays := 120 }

/-- Claim C6 counterexample: in the 91+ bucket the code never consults the
`current_coverage < target * 0.5` rule.  Here coverage 0 is below half the
target 25 and the amount is far below the exposure cap, so the claim
demands HEDGE_NOW, but `determine_action` returns WAIT (no favorable
rate). -/
theorem C6_counterexample :
    determineAction c6exp none "91+" 0 25 none = HedgeAction.wait ∧
    c6exp.amount < pyOrDefault none 999999999 ∧
    (0 : ℚ) < 25 * (1 / 2) ∧
    HedgeAction.wait ≠ HedgeAction.hedgeNow := by
  refine ⟨by decide, by decide, by norm_num, by decide⟩

/-- Claim C6 (amended): `determine_action` returns REVIEW when the amount
reaches `max_single_exposure` (with unset or zero treated as 999,999,999);
else HEDGE_NOW for the 0-30 bucket; else, only for the 31-60 and 61-90
buckets, HEDGE_NOW when coverage is below half the target and
HEDGE_PARTIAL otherwise; for every other bucket (91+ included) it returns
HEDGE_NOW exactly when both the caller-supplied current rate and the
exposure's target rate are present and nonzero and the current rate is
favorable (≤ target for payables, ≥ target for receivables), and WAIT
otherwise. -/
theorem C6_amended (e : Exposure) (maxS : Option ℚ) (horizon : String)
    (cov target : ℚ) (rate : Option ℚ) :
    (pyOrDefault maxS 999999999 ≤ e.amount →
      determineAction e maxS horizon cov target rate = HedgeAction.review) ∧
    (e.amount < pyOrDefault maxS 999999999 → horizon = "0-30" →
      determineAction e maxS horizon cov target rate = HedgeAction.hedgeNow) ∧
    (e.amount < pyOrDefault maxS 999999999 →
      (horizon = "31-60" ∨ horizon = "61-90") →
      determineAction e maxS horizon cov target rate =
        (if cov < target * (1 / 2) then HedgeAction.hedgeNow else HedgeAction.hedgePart)) ∧
    (e.amount < pyOrDefault maxS 999999999 → horizon ≠ "0-30" → horizon ≠ "31-60" →
      horizon ≠ "61-90" →
      ((rate = none ∨ e.targetRate = none →
        determineAction e maxS horizon cov target rate = HedgeAction.wait) ∧
       (∀ cr tr, rate = some cr → e.targetRate = some tr → cr ≠ 0 → tr ≠ 0 →
        (determineAction e maxS horizon cov target rate = HedgeAction.hedgeNow ↔
          (if e.exposureType = ExposureType.payable then cr ≤ tr else tr ≤ cr)) ∧
        (determineAction e maxS horizon cov target rate = HedgeAction.wait ↔
          ¬ (if e.exposureType = ExposureType.payable then cr ≤ tr else tr ≤ cr))))) := by
  refine ⟨?_, ?_, ?_, ?_⟩
  · intro hle
    simp [determineAction, hle]
  · intro hlt h030
    simp [determineAction, not_le.mpr hlt, h030]
  · intro hlt hmid
    have h030 : horizon ≠ "0-30" := by
      rcases hmid with hm | hm <;> simp [hm]
    simp [determineAction, not_le.mpr hlt, h030, hmid]
  · intro hlt h030 h3160 h6190
    constructor
    · intro habs
      rcases habs with hr | ht
      · rcases hte : e.targetRate with _ | tr <;>
          simp [determineAction, not_le.mpr hlt, h030, h3160, h6190, hr, hte]
      · rcases hre : rate with _ | cr <;>
          simp [determineAction, not_le.mpr hlt, h030, h3160, h6190, ht, hre]
    · intro cr tr hre hte hcr htr
      by_cases hty : e.exposureType = ExposureType.payable
      · by_cases hfav : cr ≤ tr
        · constructor <;>
            simp [determineAction, not_le.mpr hlt, h030, h3160, h6190, hre, hte, hcr, htr,
              hty, hfav]
        · constructor <;>
            simp [determineAction, not_le.mpr hlt, h030, h3160, h6190, hre, hte, hcr, htr,
              hty, hfav]
      · by_cases hfav : tr ≤ cr
        · constructor <;>
            simp [determineAction, not_le.mpr hlt, h030, h3160, h6190, hre, hte, hcr, htr,
              hty, hfav]
        · constructor <;>
            simp [determineAction, not_le.mpr hlt, h030, h3160, h6190, hre, hte, hcr, htr,
              hty, hfav]

/-- Claim C6 witness: the amended theorem at concrete inputs — the 0-30
bucket yields HEDGE_NOW and a favorable payable rate in the 91+ bucket
yields HEDGE_NOW. -/
theorem C6_witness :
    determineAction c6exp none "0-30" 0 100 none = HedgeAction.hedgeNow ∧
    (determineAction { c6exp with targetRate := some 4200 } none "91+" 0 25
        (some 4000) = HedgeAction.hedgeNow ↔
      (if ({ c6exp with targetRate := some 4200 } : Exposure).exposureType =
          ExposureType.payable then (4000 : ℚ) ≤ 4200 else (4200 : ℚ) ≤ 4000)) := by
  constructor
  · exact (C6_amended c6exp none "0-30" 0 100 none).2.1 (by decide) rfl
  · exact (((C6_amended { c6exp with targetRate := some 4200 } none "91+" 0 25
      (some 4000)).2.2.2 (by decide) (by decide) (by decide) (by decide)).2
      4000 4200 rfl rfl (by norm_num) (by norm_num)).1

/-- Claim C7: `evaluate_exposure` emits nothing when the stored coverage
already reaches the target or when `amount * target / 100 - amount_hedged`
is not positive; every emitted recommendation carries exactly that
quantity as `amount_to_hedge`, and only exposures strictly below target
produce one — so re-running on unchanged data never flags a compliant
exposure. -/
theorem C7_thm (e : Exposure) (maxS : Option ℚ) (T : ℤ) (horizon : String)
    (rate : Option ℚ) :
    ((T : ℚ) ≤ e.hedgePercentage →
      evaluateExposure e maxS T horizon rate = none) ∧
    (e.amount * (T : ℚ) / 100 - e.amountHedged ≤ 0 →
      evaluateExposure e maxS T horizon rate = none) ∧
    (∀ r, evaluateExposure e maxS T horizon rate = some r →
      r.amountToHedge = e.amount * (T : ℚ) / 100 - e.amountHedged ∧
      0 < r.amountToHedge ∧ e.hedgePercentage < (T : ℚ) ∧
      r.status = RecStatus.pending) := by
  refine ⟨?_, ?_, ?_⟩
  · intro h
    simp [evaluateExposure, h]
  · intro h
    by_cases hc : (T : ℚ) ≤ e.hedgePercentage
    · simp [evaluateExposure, hc]
    · simp [evaluateExposure, hc, h]
  · intro r h
    by_cases hc : (T : ℚ) ≤ e.hedgePercentage
    · simp [evaluateExposure, hc] at h
    · by_cases hz : e.amount * (T : ℚ) / 100 - e.amountHedged ≤ 0
      · simp [evaluateExposure, hc, hz] at h
      · rw [evaluateExposure] at h
        simp only [if_neg hc, if_neg hz, Option.some.injEq] at h
        subst h
        exact ⟨rfl, not_le.mp hz, not_le.mp hc, rfl⟩

/-- Concrete fully-covered exposure for the claim C7 witness. -/
def c7exp : Exposure :=
  { exposureType := ExposureType.payable
    amount := 100000
    amountHedged := 100000
    hedgePercentage := 100
    status := ExposureStatus.fullyHedged
    targetRate := none
    dueDays := 20 }

/-- Claim C7 witness: an exposure whose coverage already reaches the
target produces no recommendation. -/
theorem C7_witness :
    evaluateExposure c7exp none 100 "0-30" none = none :=
  (C7_thm c7exp none 100 "0-30" none).1 (by decide)

/-- Concrete decided recommendation and order request for claim C8. -/
def c8rec : Recommendation :=
  { status := RecStatus.rejected
    validUntil := none
    amountToHedge := 100 }

def c8data : OrderCreate :=
  { amount := 50000
    targetRate := none }

/-- Claim C8 counterexample: `create_order` flips the referenced
recommendation to ACCEPTED without checking its status, so a REJECTED —
supposedly immutable — recommendation changes status through order
creation. -/
theorem C8_counterexample :
    c8rec.status = RecStatus.rejected ∧
    (createOrder c8data (some c8rec)).2 =
      some { c8rec with status := RecStatus.accepted } ∧
    RecStatus.accepted ≠ RecStatus.rejected := by
  decide

/-- Claim C8 (amended): within the recommendation service only PENDING
recommendations transition — accept and reject fail with `none` on a
non-PENDING recommendation, and the expiry sweep moves exactly the PENDING
recommendations whose `valid_until` is in the past to EXPIRED — but
`create_order` marks any referenced recommendation ACCEPTED regardless of
its current status, so a decided recommendation can still change there. -/
theorem C8_amended (r : Recommendation) (recs : List Recommendation) (now : ℤ)
    (i : Nat) (data : OrderCreate) :
    (r.status ≠ RecStatus.pending →
      acceptRecommendation r = none ∧ rejectRecommendation r = none) ∧
    (r.status = RecStatus.pending →
      acceptRecommendation r = some { r with status := RecStatus.accepted } ∧
      rejectRecommendation r = some { r with status := RecStatus.rejected }) ∧
    ((expireOld recs now)[i]? = (recs[i]?).map fun x =>
      if x.status = RecStatus.pending ∧ validUntilPast x now then
        { x with status := RecStatus.expired }
      else x) ∧
    ((createOrder data (some r)).2 = some { r with status := RecStatus.accepted }) := by
  refine ⟨?_, ?_, ?_, rfl⟩
  · intro h
    simp [acceptRecommendation, rejectRecommendation, h]
  · intro h
    simp [acceptRecommendation, rejectRecommendation, h]
  · simp [expireOld, List.getElem?_map]

/-- Claim C8 witness: the amended theorem at the concrete REJECTED
recommendation — accept and reject both fail on it. -/
theorem C8_witness :
    acceptRecommendation c8rec = none ∧ rejectRecommendation c8rec = none :=
  (C8_amended c8rec [] 0 0 c8data).1 (by decide)

/-- Claim C9: a created order is PENDING_APPROVAL with
`requires_approval = true` exactly when its amount reaches the default
threshold 100,000, and APPROVED with `requires_approval = false`
otherwise; a referenced recommendation is marked ACCEPTED in the same
commit. -/
theorem C9_thm (data : OrderCreate) (rec : Option Recommendation) :
    ((createOrder data rec).1.requiresApproval = true ∧
      (createOrder data rec).1.status = OrderStatus.pendingApproval ↔
      (100000 : ℚ) ≤ data.amount) ∧
    ((createOrder data rec).1.requiresApproval = false ∧
      (createOrder data rec).1.status = OrderStatus.approved ↔
      data.amount < 100000) ∧
    (∀ r, rec = some r →
      (createOrder data rec).2 = some { r with status := RecStatus.accepted }) := by
  refine ⟨?_, ?_, ?_⟩
  · by_cases hc : (100000 : ℚ) ≤ data.amount
    · simp [createOrder, checkApprovalRequired, hc]
    · simp [createOrder, checkApprovalRequired, hc]
  · by_cases hc : (100000 : ℚ) ≤ data.amount
    · simp [createOrder, checkApprovalRequired, hc, not_lt.mpr hc]
    · simp [createOrder, checkApprovalRequired, hc, not_le.mp hc]
  · intro r h
    simp [createOrder, h]

/-- Concrete order request of amount 150,000 for the claim C9 witness. -/
def c9data : OrderCreate :=
  { amount := 150000
    targetRate := none }

/-- Claim C9 witness: an order of 150,000 against the default threshold
100,000 is created PENDING_APPROVAL with `requires_approval = true`. -/
theorem C9_witness :
    (createOrder c9data none).1.requiresApproval = true ∧
    (createOrder c9data none).1.status = OrderStatus.pendingApproval :=
  (C9_thm c9data none).1.mpr (by decide)

/-- Claim C10: accepting a quote whose `valid_until` is in the past fails
with `none`, marks the quote expired and leaves the order untouched;
accepting a quote that is not expired flips `is_accepted`. -/
theorem C10_thm (o : Order) (q : QuoteRec) (now v : ℤ) :
    (q.validUntil = some v → v < now →
      (acceptQuote o q now).1 = none ∧
      (acceptQuote o q now).2.1 = { q with isExpired := true } ∧
      (acceptQuote o q now).2.1.isExpired = true ∧
      (acceptQuote o q now).2.2 = o) ∧
    ((∀ w, q.validUntil = some w → now ≤ w) →
      (acceptQuote o q now).1 = some { q with isAccepted := true } ∧
      (acceptQuote o q now).2.1.isAccepted = true ∧
      (acceptQuote o q now).2.2 = o) := by
  constructor
  · intro h1 h2
    refine ⟨?_, ?_, ?_, ?_⟩ <;> simp [acceptQuote, h1, h2]
  · intro hall
    rcases hq : q.validUntil with _ | w
    · refine ⟨?_, ?_, ?_⟩ <;> simp [acceptQuote, hq]
    · have hw : ¬ w < now := not_lt.mpr (hall w hq)
      refine ⟨?_, ?_, ?_⟩ <;> simp [acceptQuote, hq, hw]

/-- Concrete expired quote and order for the claim C10 witness. -/
def c10q : QuoteRec :=
  { validUntil := some 5
    isAccepted := false
    isExpired := false }

def c10o : Order :=
  { status := OrderStatus.quoted
    amount := 1000
    requiresApproval := false
    targetRate := none }

/-- Claim C10 witness: at `now = 10` a quote valid until 5 is rejected,
marked expired, and the order is left unchanged. -/
theorem C10_witness :
    (acceptQuote c10o c10q 10).1 = none ∧
    (acceptQuote c10o c10q 10).2.1 = { c10q with isExpired := true } ∧
    (acceptQuote c10o c10q 10).2.1.isExpired = true ∧
    (acceptQuote c10o c10q 10).2.2 = c10o :=
  (C10_thm c10o c10q 10 5).1 rfl (by decide)

end Atlas
